import Mathlib

/-!
Verification of the GPG wrapper (`crab-gnupg`): a shallow embedding of
`src/gnupg.rs`, `src/utils/enums.rs` and `src/utils/errors.rs`, together with
theorems settling the specified properties of key generation, key listing,
encryption and decryption argument assembly and pre-spawn validation.

The process driver (`handle_cmd_io` in `process.rs`) and the small utility
helpers (`utils/utils.rs`) are not part of the sources; where an embedded
operation needs them they are modelled from the specification, and each such
definition carries a doc comment starting with `Modelled from the spec:`.
Operations are embedded up to the spawn boundary: a successful result is the
request that would be handed to the process driver (argument list, passphrase,
stdin payload), an error result means no external process is spawned.
Impure inputs of the source (the clock timestamp, the `LOGNAME`/`USERNAME`
environment variables, the hostname) are passed as explicit parameters.
-/

namespace CrabGnupg

/-- `Operation` from `src/utils/enums.rs`. -/
inductive Operation where
  | NotSet
  | Verify
  | GenerateKey
  | ListKey
  | SearchKey
  | ImportKey
  | TrustKey
  | ExportPublicKey
  | ExportSecretKey
  | Encrypt
  | Decrypt
  | Sign
  | VerifyFile
deriving DecidableEq, Repr

/-- `TrustLevel` from `src/utils/enums.rs`. -/
inductive TrustLevel where
  | Expired
  | Undefined
  | Never
  | Marginal
  | Fully
  | Ultimate
deriving DecidableEq, Repr

/-- `TrustLevel::value` from `src/utils/enums.rs` (a `u8` in the source; the
values 1–6 are far below 2^8, so plain `Nat` is exact). -/
def TrustLevel.value : TrustLevel → Nat
  | .Expired => 1
  | .Undefined => 2
  | .Never => 3
  | .Marginal => 4
  | .Fully => 5
  | .Ultimate => 6

/-- Position of a variant in the declaration order of `TrustLevel`
(`Expired, Undefined, Never, Marginal, Fully, Ultimate`), used to state
claims about that order. -/
def TrustLevel.idx : TrustLevel → Nat
  | .Expired => 0
  | .Undefined => 1
  | .Never => 2
  | .Marginal => 3
  | .Fully => 4
  | .Ultimate => 5

/-- Modelled from the spec: `CmdResult` (in `utils/response.rs`, not under the
given sources) is "exit-success flag, captured standard-output bytes/text,
ordered sequence of raw status lines, originating operation tag". -/
structure CmdResult where
  success : Bool
  raw_data : String
  status_lines : List String
  operation : Operation
deriving DecidableEq, Repr

/-- `GPGErrorType` from `src/utils/errors.rs`. -/
inductive GPGErrorType where
  | HomedirError (msg : String)
  | OutputDirError (msg : String)
  | GPGInitError (msg : String)
  | GPGNotFoundError (msg : String)
  | GPGProcessError (msg : String)
  | InvalidArgumentError (msg : String)
  | FailedToStartProcess (msg : String)
  | FailedToRetrieveChildProcess (msg : String)
  | WriteFailError (msg : String)
  | ReadFailError (msg : String)
  | PassphraseError (msg : String)
  | KeyNotSubkey (msg : String)
  | InvalidReasonCode (msg : String)
  | FileNotFoundError (msg : String)
  | FileNotProvidedError (msg : String)
deriving DecidableEq, Repr

/-- `GPGError` from `src/utils/errors.rs`. -/
structure GPGError where
  error_type : GPGErrorType
  cmd_result : Option CmdResult
deriving DecidableEq, Repr

/-- `GPGError::new`. -/
def GPGError.new (error_type : GPGErrorType) (cmd_result : Option CmdResult) :
    GPGError :=
  { error_type := error_type, cmd_result := cmd_result }

/-- Modelled from the spec: the process driver `handle_cmd_io`
(`process.rs`, the spec's ProcessDriver) is not under the given sources.
Operations are embedded up to the spawn boundary; a successful operation
yields the request delivered to the driver: the argument list, the passphrase
written to the dedicated channel, and the byte payload streamed to stdin. -/
structure SpawnCall where
  args : List String
  passphrase : Option String
  byte_input : Option String
deriving DecidableEq, Repr

/-- Modelled from the spec: `is_passphrase_valid` (`utils/utils.rs`) is not
under the given sources. Spec §8: "For all passphrases containing the internal
status-channel delimiter byte or other banned control characters, passphrase
validation returns invalid; for all passphrases without such characters and
within length bounds, it returns valid." We take newline, carriage return and
NUL as the banned control characters and 1024 characters as the length bound. -/
def is_passphrase_valid (p : String) : Bool :=
  decide (p.length ≤ 1024) &&
    p.data.all (fun c => !(c = '\n' || c = '\r' || c = Char.ofNat 0))

/-- Modelled from the spec: `get_file_extension` (`utils/utils.rs`) is not
under the given sources. Spec §6: the "extension is inherited from the input
file path's extension, or a fixed default extension when input arrives as a
handle/byte buffer with no associated name"; the source comments in
`gen_encrypt_args` name the default extension as `gpg`. -/
def get_file_extension : Option String → String
  | none => "gpg"
  | some p =>
    let name := ((p.splitOn "/").getLastD p)
    match (name.splitOn ".") with
    | [] => "gpg"
    | [_] => "gpg"
    | parts => parts.getLastD "gpg"

/-- Modelled from the spec: `set_output_without_confirmation`
(`utils/utils.rs`) is not under the given sources. Per its name and use it
appends the output flag with the caller-given path together with a flag that
suppresses the overwrite-confirmation prompt. Appended to the argument list in
place, mirroring the `&mut Vec<String>` update of the source. -/
def set_output_without_confirmation (args : List String) (output : String) :
    List String :=
  args ++ ["--yes", "--output", output]

/-- The `GPG` struct from `src/gnupg.rs`. The `version` field is an `f32` in
the source holding a two-component value such as `2.4`; it is modelled as an
exact rational, which is faithful for the order comparisons the source
performs on such values. -/
structure GPG where
  homedir : String
  output_dir : String
  env : Option (List (String × String))
  keyrings : Option (List String)
  secret_keyring : Option (List String)
  options : Option (List String)
  armor : Bool
  version : ℚ
  full_version : String
deriving DecidableEq, Repr

/-! ### Association-list model of the `HashMap<String, String>` of `gen_key_input`

The source builds its key-generation parameters in a `HashMap`; we model it as
an association list with unique keys. `insertKV` is `HashMap::insert`
(replaces the value of an existing key), `orInsertKV` is
`entry(..).or_insert(..)` (keeps an existing entry), `removeKV` is
`HashMap::remove` (returns the removed value and the remaining map). The
source iterates the map in an unspecified hash order; the list order here is
one concrete such order, and no theorem below depends on it. -/

/-- Rust's `str::replace("_", "-")` on a key: the pattern is a single
character, so the replacement is a character map. -/
def replaceUnderscore (s : String) : String :=
  String.mk (s.data.map (fun c => if c = '_' then '-' else c))

/-- Rust's `str::trim` on a value: drop leading and trailing whitespace. -/
def trimValue (s : String) : String :=
  String.mk
    (((s.data.dropWhile Char.isWhitespace).reverse.dropWhile
        Char.isWhitespace).reverse)

/-- Whether the map contains the key (`HashMap::contains_key`). -/
def containsKey (ps : List (String × String)) (k : String) : Bool :=
  ps.any (fun kv => kv.1 = k)

/-- `HashMap::insert`: replace the value at the key, or add the entry. -/
def insertKV (ps : List (String × String)) (k v : String) :
    List (String × String) :=
  if containsKey ps k then
    ps.map (fun kv => if kv.1 = k then (k, v) else kv)
  else
    ps ++ [(k, v)]

/-- `entry(k).or_insert(v)`: add the entry only when the key is absent. -/
def orInsertKV (ps : List (String × String)) (k v : String) :
    List (String × String) :=
  if containsKey ps k then ps else ps ++ [(k, v)]

/-- `HashMap::remove`: the removed value and the remaining map, or `none`. -/
def removeKV (ps : List (String × String)) (k : String) :
    Option (String × List (String × String)) :=
  match ps with
  | [] => none
  | kv :: rest =>
    if kv.1 = k then some (kv.2, rest)
    else
      match removeKV rest k with
      | some (v, rest2) => some (v, kv :: rest2)
      | none => none

/-- The parameter map assembled by `gen_key_input` (`src/gnupg.rs` lines
187–215): caller arguments with `_` replaced by `-` in keys and values
trimmed, then the defaulted entries `Key-Type`, `Key-Length` (only when no
`Key-Curve` was given), `Expire-Date`, `Name-Real` and `Name-Email`.
`logname` and `hostname` are the values the source reads from the
`LOGNAME`/`USERNAME` environment variables and the host name lookup. -/
def buildParams (args : Option (List (String × String)))
    (logname hostname : String) : List (String × String) :=
  let params : List (String × String) :=
    match args with
    | some l =>
      l.foldl
        (fun ps kv => insertKV ps (replaceUnderscore kv.1) (trimValue kv.2)) []
    | none => []
  let params := orInsertKV params "Key-Type" "RSA"
  let params :=
    if !containsKey params "Key-Curve" then
      orInsertKV params "Key-Length" "2048"
    else params
  let params := orInsertKV params "Expire-Date" "0"
  let params := orInsertKV params "Name-Real" "AutoGenerated Key"
  let params := orInsertKV params "Name-Email" (logname ++ "@" ++ hostname)
  params

/-- `GPG::gen_key_input` (`src/gnupg.rs` lines 167–225), with the
`params.remove("Key-Type").unwrap()` modelled as an `Option` match: `none`
is the case in which the source's `unwrap` would abort. -/
def gen_key_input_core (args : Option (List (String × String)))
    (passphrase : Option String) (logname hostname : String) :
    Option String :=
  match removeKV (buildParams args logname hostname) "Key-Type" with
  | none => none
  | some (keyType, rest) =>
    let input : String := "Key-Type: " ++ keyType ++ "\n"
    let input :=
      rest.foldl (fun s kv => s ++ (kv.1 ++ ": " ++ kv.2 ++ "\n")) input
    let input :=
      if passphrase.isNone then input ++ "%no-protection\n" else input
    some (input ++ "%commit\n")

/-- `GPG::gen_key_input` as the total `String` the source returns (the
`unwrap` never fails; see `genKeyInputCore_isSome`). -/
def gen_key_input (args : Option (List (String × String)))
    (passphrase : Option String) (logname hostname : String) : String :=
  (gen_key_input_core args passphrase logname hostname).getD ""

/-- `GPG::gen_key` (`src/gnupg.rs` lines 131–165) up to the spawn boundary. -/
def gen_key (g : GPG) (logname hostname : String)
    (key_passphrase : Option String)
    (args : Option (List (String × String))) : Except GPGError SpawnCall :=
  match key_passphrase with
  | some kp =>
    if !is_passphrase_valid kp then
      .error (GPGError.new
        (GPGErrorType.PassphraseError "key passphrase invalid") none)
    else
      .ok { args := ["--gen-key"],
            passphrase := some kp,
            byte_input :=
              some (gen_key_input args (some kp) logname hostname) }
  | none =>
    .ok { args := ["--gen-key"],
          passphrase := none,
          byte_input := some (gen_key_input args none logname hostname) }

/-- The argument list built by `GPG::list_keys` (`src/gnupg.rs` lines
232–260): the listing-mode flag (`secret` wins over `signature`), the doubled
`--fingerprint`, the version-gated `--with-keygrip`, then the caller's key
ids. -/
def list_keys_args (g : GPG) (secret : Bool) (keys : Option (List String))
    (signature : Bool) : List String :=
  let mode : String :=
    if secret then "secret-keys" else if signature then "sigs" else "keys"
  ["--list-" ++ mode, "--fingerprint", "--fingerprint"]
    ++ (if g.version ≥ (2.1 : ℚ) then ["--with-keygrip"] else [])
    ++ (match keys with | some ks => ks | none => [])

/-- `GPG::list_keys` up to the spawn boundary: the request always reaches the
driver (no pre-spawn validation), with no passphrase and no stdin payload. -/
def list_keys (g : GPG) (secret : Bool) (keys : Option (List String))
    (signature : Bool) : SpawnCall :=
  { args := list_keys_args g secret keys signature,
    passphrase := none,
    byte_input := none }

/-- `EncryptOption` from `src/gnupg.rs`. The `file: Option<File>` field is an
OS file handle; only its presence matters before the spawn boundary, so it is
modelled as `Option Unit`. -/
structure EncryptOption where
  file : Option Unit
  file_path : Option String
  recipients : Option (List String)
  sign : Bool
  sign_key : Option String
  symmetric : Bool
  symmetric_algo : Option String
  always_trust : Bool
  passphrase : Option String
  output : Option String
  extra_args : Option (List String)
deriving DecidableEq, Repr

/-- `EncryptOption::default`. -/
def EncryptOption.default (file : Option Unit) (file_path : Option String)
    (recipients : Option (List String)) (output : Option String) :
    EncryptOption :=
  { file := file, file_path := file_path, recipients := recipients,
    sign := false, sign_key := none, symmetric := false,
    symmetric_algo := none, always_trust := true, passphrase := none,
    output := output, extra_args := none }

/-- `EncryptOption::with_symmetric`. -/
def EncryptOption.with_symmetric (file : Option Unit)
    (file_path : Option String) (symmetric_algo : Option String)
    (passphrase : Option String) (output : Option String) : EncryptOption :=
  { file := file, file_path := file_path, recipients := none,
    sign := false, sign_key := none, symmetric := true,
    symmetric_algo := symmetric_algo, always_trust := true,
    passphrase := passphrase, output := output, extra_args := none }

/-- `EncryptOption::with_key_and_symmetric`. -/
def EncryptOption.with_key_and_symmetric (file : Option Unit)
    (file_path : Option String) (recipients : Option (List String))
    (symmetric_algo : Option String) (passphrase : Option String)
    (output : Option String) : EncryptOption :=
  { file := file, file_path := file_path, recipients := recipients,
    sign := false, sign_key := none, symmetric := true,
    symmetric_algo := symmetric_algo, always_trust := true,
    passphrase := passphrase, output := output, extra_args := none }

/-- `DecryptOption` from `src/gnupg.rs` (the `file` handle modelled as in
`EncryptOption`). -/
structure DecryptOption where
  file : Option Unit
  file_path : Option String
  recipient : Option String
  always_trust : Bool
  passphrase : Option String
  key_passphrase : Option String
  output : Option String
  extra_args : Option (List String)
deriving DecidableEq, Repr

/-- `DecryptOption::default`. -/
def DecryptOption.default (file : Option Unit) (file_path : Option String)
    (recipient : Option String) (key_passphrase : Option String)
    (output : Option String) : DecryptOption :=
  { file := file, file_path := file_path, recipient := recipient,
    always_trust := true, passphrase := none,
    key_passphrase := key_passphrase, output := output, extra_args := none }

/-- `DecryptOption::with_symmetric`. -/
def DecryptOption.with_symmetric (file : Option Unit)
    (file_path : Option String) (passphrase : Option String)
    (output : Option String) : DecryptOption :=
  { file := file, file_path := file_path, recipient := none,
    always_trust := true, passphrase := passphrase, key_passphrase := none,
    output := output, extra_args := none }

/-! ### Argument assembly for encryption and decryption

`gen_encrypt_args` and `gen_decrypt_args` push flag groups onto a growing
`Vec<String>`; each group is embedded as the list chunk that group appends,
in the source's order. -/

/-- The `--symmetric` block of `gen_encrypt_args` (lines 381–401): the
symmetric flags plus, when given, the cipher-preference pair. -/
def symmetricArgs (symmetric : Bool) (symmetric_algo : Option String) :
    List String :=
  if symmetric then
    ["--symmetric", "--no-symkey-cache"]
      ++ (match symmetric_algo with
          | some algo => ["--personal-cipher-preferences", algo]
          | none => [])
  else []

/-- The recipient block of `gen_encrypt_args` (lines 402–408): `--encrypt`
followed by a `--recipient` pair per recipient. -/
def recipientArgs : Option (List String) → List String
  | some rs => "--encrypt" :: rs.flatMap (fun r => ["--recipient", r])
  | none => []

/-- The `encrypt_type` string accumulated by `gen_encrypt_args`: `"pass_"`
when symmetric, then `"keys_"` when recipients are given. -/
def encryptType (symmetric : Bool) (recipients : Option (List String)) :
    String :=
  (if symmetric then "pass_" else "")
    ++ (if recipients.isSome then "keys_" else "")

/-- The armor flag block (line 419–421). -/
def armorArgs (armor : Bool) : List String :=
  if armor then ["--armor"] else []

/-- The sign block of `gen_encrypt_args` (lines 443–453). -/
def signArgs (sign : Bool) (sign_key : Option String) : List String :=
  if sign then
    match sign_key with
    | some k => ["--sign", "--default-key", k]
    | none => ["--sign"]
  else []

/-- The trust-model block (lines 455–457 and 540–542). -/
def trustArgs (always_trust : Bool) : List String :=
  if always_trust then ["--trust-model", "always"] else []

/-- The trailing extra arguments (lines 459–461 and 563–565). -/
def extraArgsList : Option (List String) → List String
  | some ea => ea
  | none => []

/-- The default `--output` pair of `gen_encrypt_args` (lines 424–441):
`<output_dir><encrypt_type>_encrypted_file_<timestamp>.<ext>` by direct
string concatenation. `ts` is the `Local::now()` timestamp, passed in
explicitly. -/
def defaultEncryptOutputArgs (g : GPG) (ts : String)
    (file_path : Option String) (encrypt_type : String) : List String :=
  ["--output",
   g.output_dir ++ encrypt_type ++ "_encrypted_file_" ++ ts ++ "."
     ++ get_file_extension file_path]

/-- The output block of `gen_encrypt_args` (lines 422–441): the caller's
explicit path through `set_output_without_confirmation`, or the default
output pair. -/
def encryptOutputStep (g : GPG) (ts : String) (file_path : Option String)
    (encrypt_type : String) (output : Option String) (args : List String) :
    List String :=
  match output with
  | some out => set_output_without_confirmation args out
  | none => args ++ defaultEncryptOutputArgs g ts file_path encrypt_type

/-- `GPG::gen_encrypt_args` (`src/gnupg.rs` lines 365–464). -/
def gen_encrypt_args (g : GPG) (ts : String) (file_path : Option String)
    (recipients : Option (List String)) (sign : Bool)
    (sign_key : Option String) (symmetric : Bool)
    (symmetric_algo : Option String) (always_trust : Bool)
    (passphrase : Option String) (output : Option String)
    (extra_args : Option (List String)) : Except GPGError (List String) :=
  if symmetric && passphrase.isNone then
    .error (GPGError.new
      (GPGErrorType.PassphraseError
        "passphrase is required if encrypting symmetrically ") none)
  else
    if (symmetricArgs symmetric symmetric_algo
        ++ recipientArgs recipients).length = 0 then
      .error (GPGError.new
        (GPGErrorType.InvalidArgumentError
          "Please choose symmetric or keys to encrypt your file") none)
    else
      .ok (encryptOutputStep g ts file_path (encryptType symmetric recipients)
            output
            ((symmetricArgs symmetric symmetric_algo
              ++ recipientArgs recipients) ++ armorArgs g.armor)
          ++ signArgs sign sign_key ++ trustArgs always_trust
          ++ extraArgsList extra_args)

/-- `GPG::encrypt` (`src/gnupg.rs` lines 291–363) up to the spawn boundary:
validate a supplied passphrase, generate the arguments, and on success emit
the spawn request (whose passphrase channel carries the symmetric
passphrase). -/
def encrypt (g : GPG) (ts : String) (o : EncryptOption) :
    Except GPGError SpawnCall :=
  let cont : Except GPGError SpawnCall :=
    match gen_encrypt_args g ts o.file_path o.recipients o.sign o.sign_key
        o.symmetric o.symmetric_algo o.always_trust o.passphrase o.output
        o.extra_args with
    | .error e => .error e
    | .ok args =>
      .ok { args := args, passphrase := o.passphrase, byte_input := none }
  match o.passphrase with
  | some p =>
    if !is_passphrase_valid p then
      .error (GPGError.new
        (GPGErrorType.PassphraseError "passphrase invalid") none)
    else cont
  | none => cont

/-- The recipient block of `gen_decrypt_args` (lines 537–539). -/
def recipientArg : Option String → List String
  | some r => ["--recipient", r]
  | none => []

/-- The default `--output` pair of `gen_decrypt_args` (lines 545–561):
`<output_dir>decrypted_file_<timestamp>.<ext>` by direct concatenation. -/
def defaultDecryptOutputArgs (g : GPG) (ts : String)
    (file_path : Option String) : List String :=
  ["--output",
   g.output_dir ++ "decrypted_file_" ++ ts ++ "."
     ++ get_file_extension file_path]

/-- The output block of `gen_decrypt_args` (lines 543–561). -/
def decryptOutputStep (g : GPG) (ts : String) (file_path : Option String)
    (output : Option String) : List String :=
  match output with
  | some out => set_output_without_confirmation [] out
  | none => defaultDecryptOutputArgs g ts file_path

/-- `GPG::gen_decrypt_args` (`src/gnupg.rs` lines 528–567). -/
def gen_decrypt_args (g : GPG) (ts : String) (file_path : Option String)
    (recipient : Option String) (always_trust : Bool)
    (output : Option String) (extra_args : Option (List String)) :
    List String :=
  ["--decrypt"] ++ recipientArg recipient ++ trustArgs always_trust
    ++ decryptOutputStep g ts file_path output
    ++ extraArgsList extra_args

/-- `GPG::decrypt` (`src/gnupg.rs` lines 472–526) up to the spawn boundary:
the key passphrase, when supplied, is the one validated and delivered;
otherwise a supplied symmetric passphrase is validated and delivered. -/
def decrypt (g : GPG) (ts : String) (o : DecryptOption) :
    Except GPGError SpawnCall :=
  let args : List String :=
    gen_decrypt_args g ts o.file_path o.recipient o.always_trust o.output
      o.extra_args
  match o.key_passphrase with
  | some kp =>
    if !is_passphrase_valid kp then
      .error (GPGError.new
        (GPGErrorType.PassphraseError "key passphrase invalid") none)
    else
      .ok { args := args, passphrase := some kp, byte_input := none }
  | none =>
    match o.passphrase with
    | some p =>
      if !is_passphrase_valid p then
        .error (GPGError.new
          (GPGErrorType.PassphraseError "passphrase invalid") none)
      else
        .ok { args := args, passphrase := some p, byte_input := none }
    | none =>
      .ok { args := args, passphrase := none, byte_input := none }

/-! ### Result-shape helpers used by the theorems -/

/-- Whether an operation result is a `PassphraseError`. -/
def resultPassphraseError : Except GPGError SpawnCall → Bool
  | .error e =>
    match e.error_type with
    | .PassphraseError _ => true
    | _ => false
  | .ok _ => false

/-- Whether an operation result is an `InvalidArgumentError`. -/
def resultInvalidArgument : Except GPGError SpawnCall → Bool
  | .error e =>
    match e.error_type with
    | .InvalidArgumentError _ => true
    | _ => false
  | .ok _ => false

/-- The argument list of a successful result (the empty list on error, where
no process is spawned). -/
def resultArgs : Except GPGError SpawnCall → List String
  | .ok sc => sc.args
  | .error _ => []

/-! ### Concrete configurations and options used by witnesses and
counterexamples -/

/-- A configuration as produced for a 1.4-series tool, with an output
directory carrying no trailing path separator (a shape `init` accepts: it only
checks that the string names a directory). -/
def gpg14 : GPG :=
  { homedir := "h", output_dir := "out", env := none, keyrings := none,
    secret_keyring := none, options := none, armor := false,
    version := (1.4 : ℚ), full_version := "1.4.23" }

/-- A configuration as produced for a 2.4-series tool. -/
def gpg24 : GPG :=
  { homedir := "h", output_dir := "out/", env := none, keyrings := none,
    secret_keyring := none, options := none, armor := false,
    version := (2.4 : ℚ), full_version := "2.4.6" }

/-- An encryption option with neither mode selected but a syntactically
invalid passphrase. -/
def encryptNoModeBadPassphrase : EncryptOption :=
  { EncryptOption.default none none none none with passphrase := some "a\nb" }

/-- A decryption option supplying both passphrases. -/
def decryptBothPassphrases : DecryptOption :=
  { file := none, file_path := none, recipient := none, always_trust := true,
    passphrase := some "sympass", key_passphrase := some "keypass",
    output := none, extra_args := none }

/-- A decryption option with a valid key passphrase and a syntactically
invalid symmetric passphrase. -/
def decryptInvalidSymValidKey : DecryptOption :=
  { file := none, file_path := none, recipient := none, always_trust := true,
    passphrase := some "a\nb", key_passphrase := some "good",
    output := none, extra_args := none }

/-- A symmetric encryption option with a valid passphrase and no explicit
output path. -/
def encryptSymmetricDefaultOutput : EncryptOption :=
  EncryptOption.with_symmetric none none none (some "pw") none

/-! ### Helper lemmas shared by the claim theorems -/

/-- `orInsertKV` puts the inserted key in the map. -/
theorem containsKey_orInsertKV_self (ps : List (String × String)) (k v : String) :
    containsKey (orInsertKV ps k v) k = true := by
  unfold orInsertKV
  cases h : containsKey ps k
  · simp [h, containsKey, List.any_append]
  · simp [h]

/-- `orInsertKV` keeps every key already in the map. -/
theorem containsKey_orInsertKV_mono (ps : List (String × String))
    (k k2 v : String) (h : containsKey ps k = true) :
    containsKey (orInsertKV ps k2 v) k = true := by
  unfold orInsertKV
  cases hc : containsKey ps k2 <;> simp_all [containsKey, List.any_append]

/-- `removeKV` finds every key the map contains. -/
theorem removeKV_isSome_of_containsKey (ps : List (String × String))
    (k : String) (h : containsKey ps k = true) :
    (removeKV ps k).isSome = true := by
  induction ps with
  | nil => simp [containsKey] at h
  | cons kv rest ih =>
    unfold removeKV
    by_cases hk : kv.1 = k
    · simp [hk]
    · simp only [containsKey, List.any_cons, Bool.or_eq_true,
        decide_eq_true_eq] at h
      rcases h with h | h
      · exact absurd h hk
      · have hr := ih (by simpa [containsKey] using h)
        cases hrem : removeKV rest k with
        | none => rw [hrem] at hr; simp at hr
        | some vr => simp [hk, hrem]

/-- The value and remainder returned by `removeKV` come from the map. -/
theorem removeKV_sub (ps : List (String × String)) (k v : String)
    (rest : List (String × String)) (h : removeKV ps k = some (v, rest)) :
    (∃ kv ∈ ps, kv.2 = v) ∧ ∀ x ∈ rest, x ∈ ps := by
  induction ps generalizing rest with
  | nil => simp [removeKV] at h
  | cons kv tail ih =>
    unfold removeKV at h
    by_cases hk : kv.1 = k
    · simp only [hk, if_true, Option.some.injEq, Prod.mk.injEq] at h
      obtain ⟨hv, hrest⟩ := h
      exact ⟨⟨kv, List.mem_cons_self kv tail, hv⟩,
        by subst hrest; exact fun x hx => List.mem_cons_of_mem _ hx⟩
    · simp only [hk, if_false] at h
      cases hrem : removeKV tail k with
      | none => rw [hrem] at h; simp at h
      | some pr =>
        obtain ⟨v2, rest2⟩ := pr
        rw [hrem] at h
        simp only [Option.some.injEq, Prod.mk.injEq] at h
        obtain ⟨hv2, hrest⟩ := h
        subst hv2
        obtain ⟨⟨kv2, hkv2, hkv2v⟩, hsub⟩ := ih rest2 hrem
        subst hrest
        refine ⟨⟨kv2, List.mem_cons_of_mem _ hkv2, hkv2v⟩, ?_⟩
        intro x hx
        rcases List.mem_cons.mp hx with hx | hx
        · exact hx ▸ List.mem_cons_self _ _
        · exact List.mem_cons_of_mem _ (hsub x hx)

/-- The parameter map assembled by `gen_key_input` always contains the
`Key-Type` entry (the source defaults it before removing it). -/
theorem buildParams_containsKey_keyType (args : Option (List (String × String)))
    (logname hostname : String) :
    containsKey (buildParams args logname hostname) "Key-Type" = true := by
  unfold buildParams
  apply containsKey_orInsertKV_mono
  apply containsKey_orInsertKV_mono
  apply containsKey_orInsertKV_mono
  split
  · apply containsKey_orInsertKV_mono
    apply containsKey_orInsertKV_self
  · apply containsKey_orInsertKV_self

/-- The data of the line-accumulating fold of `gen_key_input`. -/
theorem foldl_lines_data (rest : List (String × String)) (init : String) :
    (rest.foldl (fun s kv => s ++ (kv.1 ++ ": " ++ kv.2 ++ "\n")) init).data
      = init.data
        ++ (rest.map (fun kv => (kv.1 ++ ": " ++ kv.2 ++ "\n").data)).flatten := by
  induction rest generalizing init with
  | nil => simp
  | cons kv tail ih =>
    simp [List.foldl_cons, ih, String.data_append]

/-- Splitting a newline-joined list of newline-free lines on the newline
recovers the lines (with the trailing empty chunk). -/
theorem splitOn_flatten_lines (sep : Char) (L : List (List Char))
    (h : ∀ l ∈ L, sep ∉ l) :
    ((L.map (fun l => l ++ [sep])).flatten).splitOn sep = L ++ [[]] := by
  induction L with
  | nil => simp [List.splitOn]
  | cons a L ih =>
    simp only [List.map_cons, List.flatten_cons, List.append_assoc,
      List.singleton_append]
    show (a ++ sep :: ((L.map (fun l => l ++ [sep])).flatten)).splitOn sep
      = (a :: L) ++ [[]]
    unfold List.splitOn
    rw [List.splitOnP_first _ a ?hx sep (by simp)]
    · have := ih (fun l hl => h l (List.mem_cons_of_mem _ hl))
      unfold List.splitOn at this
      rw [this]
      rfl
    · intro x hx hbeq
      exact (h a (List.mem_cons_self a L)) ((eq_of_beq hbeq) ▸ hx)

/-- The character data of a generated key-input text, as the flattening of
its lines, each line closed by a newline. -/
theorem genKeyLines_data (v : String) (rest : List (String × String))
    (passphrase : Option String) :
    (((rest.foldl (fun s kv => s ++ (kv.1 ++ ": " ++ kv.2 ++ "\n"))
          ("Key-Type: " ++ v ++ "\n"))
        ++ (if passphrase.isNone then "%no-protection\n" else ""))
      ++ "%commit\n").data
    = ((("Key-Type: " ++ v).data
          :: (rest.map (fun kv => (kv.1 ++ ": " ++ kv.2).data))
          ++ (if passphrase.isNone then ["%no-protection".data] else [])
          ++ ["%commit".data]).map (fun l => l ++ ['\n'])).flatten := by
  have h1 : ("\n" : String).data = ['\n'] := rfl
  have h2 : ("%no-protection\n" : String).data
      = "%no-protection".data ++ ['\n'] := rfl
  have h3 : ("%commit\n" : String).data = "%commit".data ++ ['\n'] := rfl
  cases passphrase <;>
    simp [foldl_lines_data, String.data_append, List.map_map, List.map_append,
      List.flatten_append, Function.comp, List.append_assoc, h1, h2, h3] <;>
    (apply congrArg; apply List.map_congr_left; intro kv _;
      simp [Function.comp, List.append_assoc])

/-- The argument list of a successful `gen_encrypt_args` run with no
explicit output path, decomposed around the default `--output` pair. -/
theorem gen_encrypt_args_ok_shape (g : GPG) (ts : String)
    (fp : Option String) (recipients : Option (List String)) (sign : Bool)
    (sk : Option String) (symmetric : Bool) (algo : Option String)
    (at_ : Bool) (pass : Option String) (extra : Option (List String))
    (l : List String)
    (h : gen_encrypt_args g ts fp recipients sign sk symmetric algo at_ pass
      none extra = .ok l) :
    l = (symmetricArgs symmetric algo ++ recipientArgs recipients
          ++ armorArgs g.armor)
        ++ ["--output", g.output_dir ++ encryptType symmetric recipients
            ++ "_encrypted_file_" ++ ts ++ "." ++ get_file_extension fp]
        ++ (signArgs sign sk ++ trustArgs at_ ++ extraArgsList extra) := by
  unfold gen_encrypt_args at h
  split at h
  · exact absurd h (by simp)
  · split at h
    · exact absurd h (by simp)
    · simp only [Except.ok.injEq] at h
      rw [← h]
      simp [encryptOutputStep, defaultEncryptOutputArgs, List.append_assoc]

/-- A successful `encrypt` delivers exactly the argument list produced by
`gen_encrypt_args`. -/
theorem encrypt_ok_gen_args (g : GPG) (ts : String) (o : EncryptOption)
    (sc : SpawnCall) (h : encrypt g ts o = .ok sc) :
    gen_encrypt_args g ts o.file_path o.recipients o.sign o.sign_key
      o.symmetric o.symmetric_algo o.always_trust o.passphrase o.output
      o.extra_args = .ok sc.args := by
  unfold encrypt at h
  cases hg : gen_encrypt_args g ts o.file_path o.recipients o.sign o.sign_key
      o.symmetric o.symmetric_algo o.always_trust o.passphrase o.output
      o.extra_args with
  | error e =>
    rw [hg] at h
    cases hp : o.passphrase with
    | none => rw [hp] at h; simp at h
    | some p =>
      rw [hp] at h
      by_cases hv : is_passphrase_valid p <;> simp [hv] at h
  | ok a =>
    rw [hg] at h
    cases hp : o.passphrase with
    | none =>
      rw [hp] at h
      simp at h
      rw [← h]
    | some p =>
      rw [hp] at h
      by_cases hv : is_passphrase_valid p <;> simp [hv] at h
      rw [← h]

/-- A successful `decrypt` delivers exactly the argument list produced by
`gen_decrypt_args`. -/
theorem decrypt_ok_args (g : GPG) (ts : String) (o : DecryptOption)
    (sc : SpawnCall) (h : decrypt g ts o = .ok sc) :
    sc.args = gen_decrypt_args g ts o.file_path o.recipient o.always_trust
      o.output o.extra_args := by
  unfold decrypt at h
  cases hkp : o.key_passphrase with
  | some kp =>
    rw [hkp] at h
    by_cases hv : is_passphrase_valid kp <;> simp [hv] at h
    rw [← h]
  | none =>
    rw [hkp] at h
    cases hp : o.passphrase with
    | some p =>
      rw [hp] at h
      by_cases hv : is_passphrase_valid p <;> simp [hv] at h
      rw [← h]
    | none =>
      rw [hp] at h
      simp at h
      rw [← h]

/-- C5: the numeric value assigned by `TrustLevel::value` is strictly
increasing along the declaration order
`Expired < Undefined < Never < Marginal < Fully < Ultimate`:
`value a < value b` exactly when `a` precedes `b` in that order. -/
theorem trustLevel_value_respects_declaration_order (a b : TrustLevel) :
    a.value < b.value ↔ a.idx < b.idx := by
  cases a <;> cases b <;> decide

/-- C4 (counterexample): the claim "`--with-keygrip` is in the generated
argument list iff the configured tool version is at least 2.1" fails as
stated, because the caller-supplied key ids are appended verbatim to the
argument list: under a 1.4 configuration, passing the flag itself as a key id
puts it in the list even though the version gate is off. -/
theorem listKeys_keygrip_injected_despite_old_version :
    "--with-keygrip" ∈ (list_keys gpg14 false (some ["--with-keygrip"]) false).args
      ∧ ¬ ((2.1 : ℚ) ≤ gpg14.version) := by
  have h : ¬ (gpg14.version ≥ (2.1 : ℚ)) := by norm_num [gpg14]
  exact ⟨by simp [list_keys, list_keys_args, h], by norm_num [gpg14]⟩

/-- C4 (amended): provided no caller-supplied key id is the flag string
itself, `list_keys` puts `--with-keygrip` in the generated argument list
exactly when the configured tool version is at least 2.1. -/
theorem listKeys_keygrip_iff_version_ge (g : GPG) (secret signature : Bool)
    (keys : Option (List String))
    (hk : ∀ ks, keys = some ks → "--with-keygrip" ∉ ks) :
    "--with-keygrip" ∈ (list_keys g secret keys signature).args
      ↔ (2.1 : ℚ) ≤ g.version := by
  unfold list_keys list_keys_args
  by_cases hv : g.version ≥ (2.1 : ℚ) <;>
    cases keys with
    | none => cases secret <;> cases signature <;> simp [hv]
    | some ks => cases secret <;> cases signature <;> simp [hv, hk ks rfl]

/-- C4 witness: under the 2.4 configuration the keygrip flag is emitted. -/
theorem listKeys_keygrip_iff_version_ge_witness :
    "--with-keygrip" ∈ (list_keys gpg24 false none false).args :=
  (listKeys_keygrip_iff_version_ge gpg24 false false none
    (fun ks h => by simp at h)).mpr (by norm_num [gpg24])

/-- C10 (counterexample): the claim "`--fingerprint` is emitted exactly
twice" fails as stated: caller-supplied key ids are appended verbatim, so
passing `--fingerprint` as a key id makes it occur three times. -/
theorem listKeys_fingerprint_count_broken_by_key_ids :
    ((list_keys gpg14 false (some ["--fingerprint"]) false).args.count
      "--fingerprint") = 3 := by
  have h : ¬ (gpg14.version ≥ (2.1 : ℚ)) := by norm_num [gpg14]
  simp [list_keys, list_keys_args, h]

/-- C10 (amended): provided no caller-supplied key id equals a listing-mode
flag or `--fingerprint`, the argument list generated by `list_keys` contains
`--fingerprint` exactly twice and exactly one listing-mode flag, the secret
flag taking precedence over the signature flag. -/
theorem listKeys_mode_flag_and_fingerprint_counts (g : GPG)
    (secret signature : Bool) (keys : Option (List String))
    (hk : ∀ ks, keys = some ks → ∀ k ∈ ks,
      k ≠ "--list-keys" ∧ k ≠ "--list-secret-keys" ∧ k ≠ "--list-sigs"
        ∧ k ≠ "--fingerprint") :
    ((list_keys g secret keys signature).args.count "--fingerprint" = 2)
    ∧ (secret = true →
        (list_keys g secret keys signature).args.count "--list-secret-keys" = 1
        ∧ (list_keys g secret keys signature).args.count "--list-sigs" = 0
        ∧ (list_keys g secret keys signature).args.count "--list-keys" = 0)
    ∧ (secret = false → signature = true →
        (list_keys g secret keys signature).args.count "--list-sigs" = 1
        ∧ (list_keys g secret keys signature).args.count "--list-secret-keys" = 0
        ∧ (list_keys g secret keys signature).args.count "--list-keys" = 0)
    ∧ (secret = false → signature = false →
        (list_keys g secret keys signature).args.count "--list-keys" = 1
        ∧ (list_keys g secret keys signature).args.count "--list-secret-keys" = 0
        ∧ (list_keys g secret keys signature).args.count "--list-sigs" = 0) := by
  by_cases hv : g.version ≥ (2.1 : ℚ) <;>
    cases keys with
    | none =>
      cases secret <;> cases signature <;>
        simp [list_keys, list_keys_args, hv]
    | some ks =>
      have h1 : ks.count "--fingerprint" = 0 :=
        List.count_eq_zero.mpr (fun hmem => ((hk ks rfl _ hmem).2.2.2) rfl)
      have h2 : ks.count "--list-keys" = 0 :=
        List.count_eq_zero.mpr (fun hmem => ((hk ks rfl _ hmem).1) rfl)
      have h3 : ks.count "--list-secret-keys" = 0 :=
        List.count_eq_zero.mpr (fun hmem => ((hk ks rfl _ hmem).2.1) rfl)
      have h4 : ks.count "--list-sigs" = 0 :=
        List.count_eq_zero.mpr (fun hmem => ((hk ks rfl _ hmem).2.2.1) rfl)
      cases secret <;> cases signature <;>
        simp [list_keys, list_keys_args, hv, h1, h2, h3, h4]

/-- C10 witness: a secret listing with an ordinary key id has the doubled
fingerprint flag and exactly the secret-listing mode flag. -/
theorem listKeys_mode_flag_and_fingerprint_counts_witness :
    ((list_keys gpg24 true (some ["0A1B"]) false).args.count "--fingerprint" = 2)
    ∧ ((list_keys gpg24 true (some ["0A1B"]) false).args.count
        "--list-secret-keys" = 1) := by
  have h := listKeys_mode_flag_and_fingerprint_counts gpg24 true false
    (some ["0A1B"]) (fun ks hks => by cases hks; decide)
  exact ⟨h.1, (h.2.1 rfl).1⟩

/-- C3: symmetric encryption requested with no passphrase yields a
`PassphraseError`; the error return means the spawn boundary is never
reached, so no external process is started. -/
theorem encrypt_symmetric_no_passphrase_is_passphrase_error (g : GPG)
    (ts : String) (o : EncryptOption) (hsym : o.symmetric = true)
    (hp : o.passphrase = none) :
    encrypt g ts o = .error (GPGError.new
      (GPGErrorType.PassphraseError
        "passphrase is required if encrypting symmetrically ") none) := by
  unfold encrypt gen_encrypt_args
  rw [hp, hsym]
  simp

/-- C3 witness. -/
theorem encrypt_symmetric_no_passphrase_witness :
    encrypt gpg14 "T" (EncryptOption.with_symmetric none none none none none)
      = .error (GPGError.new
        (GPGErrorType.PassphraseError
          "passphrase is required if encrypting symmetrically ") none) :=
  encrypt_symmetric_no_passphrase_is_passphrase_error gpg14 "T" _ rfl rfl

/-- C7 (counterexample): with neither symmetric mode nor recipients, the
claim "encrypt returns an `InvalidArgumentError`" fails when the option also
carries a syntactically invalid passphrase: passphrase validation runs first
and the call returns a `PassphraseError` instead. -/
theorem encrypt_no_mode_invalid_passphrase_not_invalid_argument :
    encryptNoModeBadPassphrase.symmetric = false
    ∧ encryptNoModeBadPassphrase.recipients = none
    ∧ resultInvalidArgument (encrypt gpg14 "T" encryptNoModeBadPassphrase) = false
    ∧ resultPassphraseError (encrypt gpg14 "T" encryptNoModeBadPassphrase) = true := by
  decide

/-- C7 (amended): with neither symmetric mode nor recipients, and any
supplied passphrase passing syntax validation, `encrypt` returns the
missing-mode `InvalidArgumentError`; the error return means no external
process is spawned. -/
theorem encrypt_no_mode_is_invalid_argument (g : GPG) (ts : String)
    (o : EncryptOption) (hsym : o.symmetric = false)
    (hrec : o.recipients = none)
    (hp : ∀ p, o.passphrase = some p → is_passphrase_valid p = true) :
    encrypt g ts o = .error (GPGError.new
      (GPGErrorType.InvalidArgumentError
        "Please choose symmetric or keys to encrypt your file") none) := by
  unfold encrypt gen_encrypt_args
  rw [hsym, hrec]
  cases hop : o.passphrase with
  | none => simp [symmetricArgs, recipientArgs]
  | some p => simp [symmetricArgs, recipientArgs, hp p hop]

/-- C7 witness. -/
theorem encrypt_no_mode_is_invalid_argument_witness :
    encrypt gpg14 "T" (EncryptOption.default none none none none)
      = .error (GPGError.new
        (GPGErrorType.InvalidArgumentError
          "Please choose symmetric or keys to encrypt your file") none) :=
  encrypt_no_mode_is_invalid_argument gpg14 "T" _ rfl rfl
    (by simp [EncryptOption.default])

/-- C9: when both `key_passphrase` and `passphrase` are supplied to
`decrypt`, the key passphrase takes precedence: it alone is validated and it
alone is delivered on the passphrase channel of the spawn request, and the
symmetric passphrase plays no role in the result at all (third conjunct). -/
theorem decrypt_key_passphrase_precedence (g : GPG) (ts : String)
    (o : DecryptOption) (kp p : String)
    (hkp : o.key_passphrase = some kp) (hp : o.passphrase = some p) :
    (is_passphrase_valid kp = true →
      decrypt g ts o = .ok
        { args := gen_decrypt_args g ts o.file_path o.recipient o.always_trust
            o.output o.extra_args,
          passphrase := some kp, byte_input := none })
    ∧ (is_passphrase_valid kp = false →
      decrypt g ts o = .error (GPGError.new
        (GPGErrorType.PassphraseError "key passphrase invalid") none))
    ∧ (∀ p2 : String,
        decrypt g ts { o with passphrase := some p2 } = decrypt g ts o) := by
  refine ⟨fun hv => ?_, fun hv => ?_, fun p2 => ?_⟩
  · unfold decrypt; rw [hkp]; simp [hv]
  · unfold decrypt; rw [hkp]; simp [hv]
  · unfold decrypt gen_decrypt_args; rw [hkp]

/-- C9 witness. -/
theorem decrypt_key_passphrase_precedence_witness :
    decrypt gpg14 "T" decryptBothPassphrases = .ok
      { args := gen_decrypt_args gpg14 "T" none none true none none,
        passphrase := some "keypass", byte_input := none } :=
  (decrypt_key_passphrase_precedence gpg14 "T" decryptBothPassphrases
    "keypass" "sympass" rfl rfl).1 (by decide)

/-- C6 (counterexample): the claim "if a supplied passphrase (or key
passphrase) fails syntax validation, the call returns a PassphraseError"
fails as stated for `decrypt`: when a key passphrase is supplied, a
syntactically invalid symmetric passphrase is never validated and the call
succeeds past the validation stage. -/
theorem decrypt_unvalidated_passphrase_no_error :
    is_passphrase_valid "a\nb" = false
    ∧ decryptInvalidSymValidKey.passphrase = some "a\nb"
    ∧ resultPassphraseError (decrypt gpg14 "T" decryptInvalidSymValidKey)
        = false := by
  decide

/-- C6 (amended): for `gen_key`, `encrypt` and `decrypt`, if the passphrase
the operation validates fails syntax validation — for `decrypt` that is the
key passphrase when supplied, otherwise the symmetric passphrase — the call
returns a `PassphraseError`; the error return precedes the spawn boundary,
so no argument list is delivered and no process is spawned. -/
theorem prespawn_passphrase_validation :
    (∀ (g : GPG) (logname hostname kp : String)
        (args : Option (List (String × String))),
      is_passphrase_valid kp = false →
      gen_key g logname hostname (some kp) args = .error (GPGError.new
        (GPGErrorType.PassphraseError "key passphrase invalid") none))
    ∧ (∀ (g : GPG) (ts : String) (o : EncryptOption) (p : String),
      o.passphrase = some p → is_passphrase_valid p = false →
      encrypt g ts o = .error (GPGError.new
        (GPGErrorType.PassphraseError "passphrase invalid") none))
    ∧ (∀ (g : GPG) (ts : String) (o : DecryptOption) (kp : String),
      o.key_passphrase = some kp → is_passphrase_valid kp = false →
      decrypt g ts o = .error (GPGError.new
        (GPGErrorType.PassphraseError "key passphrase invalid") none))
    ∧ (∀ (g : GPG) (ts : String) (o : DecryptOption) (p : String),
      o.key_passphrase = none → o.passphrase = some p →
      is_passphrase_valid p = false →
      decrypt g ts o = .error (GPGError.new
        (GPGErrorType.PassphraseError "passphrase invalid") none)) := by
  refine ⟨fun g ln hn kp args hv => ?_, fun g ts o p hp hv => ?_,
    fun g ts o kp hkp hv => ?_, fun g ts o p hkp hp hv => ?_⟩
  · unfold gen_key; simp [hv]
  · unfold encrypt; rw [hp]; simp [hv]
  · unfold decrypt; rw [hkp]; simp [hv]
  · unfold decrypt; rw [hkp, hp]; simp [hv]

/-- C6 witness: each validated-passphrase failure at a concrete input. -/
theorem prespawn_passphrase_validation_witness :
    (gen_key gpg14 "l" "h" (some "a\nb") none = .error (GPGError.new
      (GPGErrorType.PassphraseError "key passphrase invalid") none))
    ∧ (encrypt gpg14 "T" encryptNoModeBadPassphrase = .error (GPGError.new
      (GPGErrorType.PassphraseError "passphrase invalid") none))
    ∧ (decrypt gpg14 "T" (DecryptOption.default none none none (some "a\nb") none)
        = .error (GPGError.new
          (GPGErrorType.PassphraseError "key passphrase invalid") none))
    ∧ (decrypt gpg14 "T" (DecryptOption.with_symmetric none none (some "a\nb") none)
        = .error (GPGError.new
          (GPGErrorType.PassphraseError "passphrase invalid") none)) :=
  ⟨prespawn_passphrase_validation.1 gpg14 "l" "h" "a\nb" none (by decide),
   prespawn_passphrase_validation.2.1 gpg14 "T" encryptNoModeBadPassphrase
     "a\nb" rfl (by decide),
   prespawn_passphrase_validation.2.2.1 gpg14 "T" _ "a\nb" rfl (by decide),
   prespawn_passphrase_validation.2.2.2 gpg14 "T" _ "a\nb" rfl rfl (by decide)⟩

/-- C8: the wrapper never aborts: each operation is a total function into a
success-or-`GPGError` result (their types above), and the one `unwrap` whose
guard is not a directly enclosing `is_some` check — the removal of the
`Key-Type` entry in `gen_key_input` — is unreachable in its failure branch:
the `Option`-modelled core always returns the text `gen_key_input` yields,
for every argument map, passphrase and environment. -/
theorem genKeyInput_unwrap_never_fails (args : Option (List (String × String)))
    (passphrase : Option String) (logname hostname : String) :
    gen_key_input_core args passphrase logname hostname
      = some (gen_key_input args passphrase logname hostname) := by
  have h2 := removeKV_isSome_of_containsKey _ _
    (buildParams_containsKey_keyType args logname hostname)
  have h3 : (gen_key_input_core args passphrase logname hostname).isSome
      = true := by
    unfold gen_key_input_core
    cases hrem : removeKV (buildParams args logname hostname) "Key-Type" with
    | none => rw [hrem] at h2; simp at h2
    | some pr => simp
  obtain ⟨t, ht⟩ := Option.isSome_iff_exists.mp h3
  rw [ht]
  unfold gen_key_input
  rw [ht]
  rfl

/-- C2 (counterexample): the claim "the key-generation input contains the
no-protection directive iff no passphrase was supplied" fails as stated for
arbitrary argument maps: an argument key carrying embedded newlines injects a
`%no-protection` line into the text even though a passphrase was supplied. -/
theorem genKeyInput_noProtection_injected_with_passphrase :
    "%no-protection".data
      ∈ (gen_key_input (some [("A\n%no-protection\nB", "x")]) (some "pw")
          "l" "h").data.splitOn '\n'
    ∧ (some "pw" : Option String) ≠ none := by
  decide

/-- C2 (amended): provided no key or value of the assembled parameter map
contains a newline, the key-generation input text starts with a line
`Key-Type: <value>`, ends with the `%commit` directive as its final line, and
contains a `%no-protection` line iff no passphrase was supplied. -/
theorem genKeyInput_structure (args : Option (List (String × String)))
    (passphrase : Option String) (logname hostname : String)
    (hnl : ∀ kv ∈ buildParams args logname hostname,
      '\n' ∉ kv.1.data ∧ '\n' ∉ kv.2.data) :
    (∃ v rest, '\n' ∉ v.data
      ∧ gen_key_input args passphrase logname hostname
          = "Key-Type: " ++ v ++ "\n" ++ rest)
    ∧ (∃ s, gen_key_input args passphrase logname hostname = s ++ "%commit\n")
    ∧ ("%no-protection".data
        ∈ (gen_key_input args passphrase logname hostname).data.splitOn '\n'
      ↔ passphrase = none) := by
  cases hrem : removeKV (buildParams args logname hostname) "Key-Type" with
  | none =>
    have h2 := removeKV_isSome_of_containsKey _ _
      (buildParams_containsKey_keyType args logname hostname)
    rw [hrem] at h2
    simp at h2
  | some pr =>
    obtain ⟨v, rest⟩ := pr
    obtain ⟨⟨kv0, hkv0, hkv0v⟩, hsub⟩ := removeKV_sub _ _ _ _ hrem
    have hval : '\n' ∉ v.data := hkv0v ▸ (hnl kv0 hkv0).2
    have hrest : ∀ kv ∈ rest, '\n' ∉ kv.1.data ∧ '\n' ∉ kv.2.data :=
      fun kv hm => hnl kv (hsub kv hm)
    have hT : gen_key_input args passphrase logname hostname
        = ((rest.foldl (fun s kv => s ++ (kv.1 ++ ": " ++ kv.2 ++ "\n"))
              ("Key-Type: " ++ v ++ "\n"))
            ++ (if passphrase.isNone then "%no-protection\n" else ""))
          ++ "%commit\n" := by
      unfold gen_key_input gen_key_input_core
      rw [hrem]
      cases passphrase <;> simp
    have hdata : (gen_key_input args passphrase logname hostname).data
        = ((("Key-Type: " ++ v).data
              :: (rest.map (fun kv => (kv.1 ++ ": " ++ kv.2).data))
              ++ (if passphrase.isNone then ["%no-protection".data] else [])
              ++ ["%commit".data]).map (fun l => l ++ ['\n'])).flatten := by
      rw [hT, genKeyLines_data]
    have hfree : ∀ l ∈ (("Key-Type: " ++ v).data
          :: (rest.map (fun kv => (kv.1 ++ ": " ++ kv.2).data))
          ++ (if passphrase.isNone then ["%no-protection".data] else [])
          ++ ["%commit".data]), '\n' ∉ l := by
      intro l hl
      rcases List.mem_cons.mp hl with hl | hl
      · subst hl
        intro hmem
        rw [String.data_append] at hmem
        rcases List.mem_append.mp hmem with h | h
        · exact absurd h (by decide)
        · exact hval h
      · rcases List.mem_append.mp hl with hl | hl
        · rcases List.mem_append.mp hl with hl | hl
          · obtain ⟨kv, hkv, rfl⟩ := List.mem_map.mp hl
            intro hmem
            simp only [String.data_append] at hmem
            rcases List.mem_append.mp hmem with h | h
            · rcases List.mem_append.mp h with h | h
              · exact (hrest kv hkv).1 h
              · exact absurd h (by decide)
            · exact (hrest kv hkv).2 h
          · cases hpn : passphrase <;> rw [hpn] at hl <;> simp at hl
            subst hl
            decide
        · simp at hl
          subst hl
          decide
    have hsplit :
        (gen_key_input args passphrase logname hostname).data.splitOn '\n'
        = (("Key-Type: " ++ v).data
            :: (rest.map (fun kv => (kv.1 ++ ": " ++ kv.2).data))
            ++ (if passphrase.isNone then ["%no-protection".data] else [])
            ++ ["%commit".data]) ++ [[]] := by
      rw [hdata, splitOn_flatten_lines _ _ hfree]
    refine ⟨?_, ⟨_, hT⟩, ?_⟩
    · refine ⟨v, String.mk ((rest.map
          (fun kv => (kv.1 ++ ": " ++ kv.2 ++ "\n").data)).flatten)
          ++ (if passphrase.isNone then "%no-protection\n" else "")
          ++ "%commit\n", hval, ?_⟩
      rw [hT]
      apply String.ext
      simp [String.data_append, foldl_lines_data, List.append_assoc]
    · rw [hsplit]
      cases passphrase with
      | none => simp
      | some p =>
        simp only [Option.isNone_some, Bool.false_eq_true, if_false,
          List.append_nil]
        constructor
        · intro hmem
          exfalso
          rcases List.mem_append.mp hmem with h | h
          · rcases List.mem_cons.mp h with h | h
            · have hcolon : ':' ∈ ("Key-Type: " ++ v).data := by
                rw [String.data_append]
                exact List.mem_append.mpr (Or.inl (by decide))
              rw [← h] at hcolon
              exact absurd hcolon (by decide)
            · rcases List.mem_append.mp h with h | h
              · obtain ⟨kv, hkv, heq⟩ := List.mem_map.mp h
                have hcolon : ':' ∈ (kv.1 ++ ": " ++ kv.2).data := by
                  simp [String.data_append]
                rw [heq] at hcolon
                exact absurd hcolon (by decide)
              · simp at h
          · simp at h
        · intro h
          exact absurd h (by simp)

/-- C2 witness: the amended structure at a concrete key-generation call. -/
theorem genKeyInput_structure_witness :
    (∃ v rest, '\n' ∉ v.data
      ∧ gen_key_input none none "alice" "host"
          = "Key-Type: " ++ v ++ "\n" ++ rest)
    ∧ (∃ s, gen_key_input none none "alice" "host" = s ++ "%commit\n")
    ∧ ("%no-protection".data
        ∈ (gen_key_input none none "alice" "host").data.splitOn '\n'
      ↔ (none : Option String) = none) :=
  genKeyInput_structure none none "alice" "host" (by decide)

/-- C1 (counterexample): the claim that the default output path is
`<output_dir>/<encrypt_type>_encrypted_file_<timestamp>.<ext>` fails as
stated: the source concatenates the output directory and the file name
directly, inserting no path separator, so under a configuration whose output
directory lacks a trailing separator the claimed path is absent from the
argument list and the separator-free concatenation is present. -/
theorem encrypt_default_output_no_path_separator :
    gpg14.output_dir = "out"
    ∧ (resultArgs (encrypt gpg14 "T" encryptSymmetricDefaultOutput)).contains
        "out/pass__encrypted_file_T.gpg" = false
    ∧ (resultArgs (encrypt gpg14 "T" encryptSymmetricDefaultOutput)).contains
        "outpass__encrypted_file_T.gpg" = true := by
  decide

/-- C1 (amended): whenever `encrypt` or `decrypt` succeeds with no explicit
output path, the delivered argument list contains an adjacent
`--output <value>` pair whose value is the direct concatenation (no path
separator inserted) of the output directory, the encrypt-type tag (`pass_`
when symmetric, `keys_` when recipient keys, both concatenated when both,
empty for decryption which uses `decrypted_file`), the fixed file-name stem,
the timestamp, a dot and the extension inherited from the input file path or
the fixed default. -/
theorem default_output_naming :
    (∀ (g : GPG) (ts : String) (o : EncryptOption) (sc : SpawnCall),
      o.output = none → encrypt g ts o = .ok sc →
      ∃ pre post, sc.args = pre
        ++ ["--output", g.output_dir
              ++ ((if o.symmetric then "pass_" else "")
                  ++ (if o.recipients.isSome then "keys_" else ""))
              ++ "_encrypted_file_" ++ ts ++ "."
              ++ get_file_extension o.file_path]
        ++ post)
    ∧ (∀ (g : GPG) (ts : String) (o : DecryptOption) (sc : SpawnCall),
      o.output = none → decrypt g ts o = .ok sc →
      ∃ pre post, sc.args = pre
        ++ ["--output", g.output_dir ++ "decrypted_file_" ++ ts ++ "."
              ++ get_file_extension o.file_path]
        ++ post) := by
  constructor
  · intro g ts o sc ho hok
    have hg := encrypt_ok_gen_args g ts o sc hok
    rw [ho] at hg
    have hshape := gen_encrypt_args_ok_shape g ts o.file_path o.recipients
      o.sign o.sign_key o.symmetric o.symmetric_algo o.always_trust
      o.passphrase o.extra_args sc.args hg
    refine ⟨symmetricArgs o.symmetric o.symmetric_algo
        ++ recipientArgs o.recipients ++ armorArgs g.armor,
      signArgs o.sign o.sign_key ++ trustArgs o.always_trust
        ++ extraArgsList o.extra_args, ?_⟩
    rw [hshape]
    simp [encryptType, List.append_assoc]
  · intro g ts o sc ho hok
    have ha := decrypt_ok_args g ts o sc hok
    rw [ho] at ha
    refine ⟨["--decrypt"] ++ recipientArg o.recipient
        ++ trustArgs o.always_trust, extraArgsList o.extra_args, ?_⟩
    rw [ha]
    simp [gen_decrypt_args, decryptOutputStep, defaultDecryptOutputArgs,
      List.append_assoc]

/-- C1 witness: the amended naming at a concrete symmetric encryption and a
concrete decryption, each with the system-chosen output. -/
theorem default_output_naming_witness :
    (∃ pre post,
      (SpawnCall.mk ["--symmetric", "--no-symkey-cache", "--output",
          "outpass__encrypted_file_T.gpg", "--trust-model", "always"]
        (some "pw") none).args
        = pre ++ ["--output", gpg14.output_dir
            ++ ((if encryptSymmetricDefaultOutput.symmetric then "pass_" else "")
              ++ (if encryptSymmetricDefaultOutput.recipients.isSome then "keys_"
                  else ""))
            ++ "_encrypted_file_" ++ "T" ++ "."
            ++ get_file_extension encryptSymmetricDefaultOutput.file_path]
          ++ post)
    ∧ (∃ pre post,
      (SpawnCall.mk ["--decrypt", "--trust-model", "always", "--output",
          "outdecrypted_file_T.gpg"] (some "kp") none).args
        = pre ++ ["--output", gpg14.output_dir ++ "decrypted_file_" ++ "T"
            ++ "."
            ++ get_file_extension
              (DecryptOption.default none none none (some "kp") none).file_path]
          ++ post) :=
  ⟨default_output_naming.1 gpg14 "T" encryptSymmetricDefaultOutput _ rfl rfl,
   default_output_naming.2 gpg14 "T"
      (DecryptOption.default none none none (some "kp") none) _ rfl rfl⟩

end CrabGnupg

